import Mathlib

/-!
Verification of the bot-classification and analytics-reconstruction core of the
font-scraper tool: the `BotFilter` class
(`cli-tool/src/font-scraper/filters/BotFilter.js`) and the
`AnalyticsReconstructor` class shipped alongside `WaybackFetcher.js`.

Modelling conventions.

* JavaScript string-valued fields that may be `undefined` or `null` are
  embedded as `JStr` (a string, `undefined`, or `null`); JS truthiness for
  such a value is `JStr.truthy` (the empty string, `undefined` and `null`
  are falsy).
* Numbers appearing in behavioural session summaries are embedded as
  `Option ℚ` (`none` = the field is absent, i.e. `undefined`).  The source
  compares them with `>` / `<` / `===`, for which `undefined` makes every
  comparison false; `qGT`, `qLT` mirror that.
* A computation that throws a `TypeError` in JS (reading a property of
  `undefined`) is embedded as an `Option` result, `none` meaning the
  exception propagates.  The only throwing site in this core is
  the unguarded access `session.headers.acceptLanguage` in `analyzeBehavior`.
* `Number.prototype.toFixed(2)` produces a decimal string in JS; we model
  its numeric value, `toFixed2`, rounding to two decimals (half up, the
  behaviour on the positive non-tie values arising here).  A JS `NaN`
  produced by an unguarded `0/0` is modelled by the `JNum.nan` constructor.
* The MD5 digest (`crypto.createHash`, a Node library external to the
  repository) is abstracted as a parameter `md5hex : String → String`;
  likewise `new Date(ts).getTime()` is abstracted as
  `parseTime : String → Int` (milliseconds since the epoch).  All theorems
  hold for every choice of these parameters unless they instantiate them.
* JS case-insensitive regex matching of the (all-ASCII, all-literal) bot
  signatures is embedded as ASCII lowercasing plus substring search over
  character lists.
* Plain JS objects used as maps (`detectionMethods`, `visitorSessions`,
  referrer buckets) are embedded as association lists in key-insertion
  order, which is how JS enumerates them.
-/

namespace FontScraper

/-- A JavaScript string-ish value: a proper string, `undefined`, or `null`. -/
inductive JStr where
  | undefined
  | jnull
  | str (s : String)
deriving DecidableEq

/-- JS truthiness of a string-ish value: `undefined`, `null` and the empty
string are falsy, every other string is truthy. -/
def JStr.truthy : JStr → Bool
  | .str s => !(s == "")
  | _ => false

/-- The underlying string of a `JStr` (the empty string for `undefined` and
`null`; only ever used under a `truthy` guard). -/
def JStr.val : JStr → String
  | .str s => s
  | _ => ""

/-- The JS idiom `x || d` for a string-ish `x` and string default `d`. -/
def jstrOr (x : JStr) (d : String) : String :=
  if x.truthy then x.val else d

/-- ASCII lowercasing of one character (models the effect of the `/i` regex
flag on the all-ASCII signature patterns). -/
def lowerChar (c : Char) : Char :=
  if 65 ≤ c.toNat ∧ c.toNat ≤ 90 then Char.ofNat (c.toNat + 32) else c

/-- ASCII lowercasing of a string. -/
def lowerStr (s : String) : String := ⟨s.data.map lowerChar⟩

/-- Substring search over character lists: does `p` occur contiguously in
`l`?  Structural, so that concrete instances evaluate in the kernel. -/
def containsChars (p : List Char) : List Char → Bool
  | [] => p.isEmpty
  | c :: rest => p.isPrefixOf (c :: rest) || containsChars p rest

/-- Does the string `s` contain `p` as a substring? -/
def containsSub (s p : String) : Bool := containsChars p.data s.data

/-- `String.startsWith`, restated structurally over character lists. -/
def strStartsWith (s p : String) : Bool := p.data.isPrefixOf s.data

/-! ### BotFilter: the pattern catalog (`BotFilter.js`, constructor) -/

/-- The user-agent bot signature catalog (`this.botPatterns`).  Every regex
in the source is a case-insensitive literal, so each is embedded as its
lowercase literal text; matching is case-insensitive substring search. -/
def botPatterns : List String :=
  [ "googlebot", "bingbot", "slurp", "duckduckbot", "baiduspider",
    "yandexbot", "sogou", "exabot",
    "facebookexternalhit", "twitterbot", "linkedinbot", "pinterest",
    "slackbot", "telegrambot", "whatsapp",
    "ahrefsbot", "semrushbot", "majestic", "mj12bot", "dotbot", "rogerbot",
    "screaming frog",
    "archive.org_bot", "ia_archiver", "wayback",
    "bot", "crawler", "spider", "scraper", "curl", "wget",
    "python-requests", "java/", "go-http-client", "axios", "node-fetch",
    "pingdom", "uptimerobot", "newrelic", "datadog", "site24x7",
    "nikto", "nessus", "qualys", "acunetix", "nmap",
    "cloudflare", "akamai", "fastly",
    "headlesschrome", "phantomjs", "selenium", "puppeteer", "playwright" ]

/-- The known bot IP address prefix list (`knownBotIPs` in `isBotIP`). -/
def knownBotIPs : List String := ["66.249.", "40.77.", "157.55.", "207.46."]

/-- Behavioural threshold `this.suspiciousPatterns.rapidRequests`. -/
def rapidRequests : ℚ := 100

/-- Behavioural threshold `this.suspiciousPatterns.shortSessionDuration`. -/
def shortSessionDuration : ℚ := 2000

/-! ### BotFilter: classification (`BotFilter.js` lines 109-246) -/

/-- `isBotUserAgent`: a missing, empty or non-string user agent is treated
as a bot; otherwise the catalog signatures are tested case-insensitively. -/
def isBotUserAgent (userAgent : JStr) : Bool :=
  match userAgent with
  | .str s => if s == "" then true
              else botPatterns.any (fun p => containsSub (lowerStr s) p)
  | _ => true

/-- `isBotIP`: a falsy IP is never a bot IP; otherwise literal prefix match
against the known bot IP prefixes. -/
def isBotIP (ip : JStr) : Bool :=
  match ip with
  | .str s => if s == "" then false
              else knownBotIPs.any (fun p => strStartsWith s p)
  | _ => false

/-- HTTP-ish headers carried by a behavioural session summary. -/
structure Headers where
  acceptLanguage : JStr
  referer : JStr
deriving DecidableEq

/-- A behavioural session summary, the `session` argument of
`analyzeBehavior`.  Numeric fields are `none` when absent (`undefined`). -/
structure Session where
  requestsPerMinute : Option ℚ
  duration : Option ℚ
  hasJavaScript : Option Bool
  accessPattern : JStr
  perfectTiming : Option Bool
  errorRate : Option ℚ
  requestCount : Option ℚ
  headers : Option Headers
deriving DecidableEq

/-- JS `x > c` for a possibly-absent number `x` (`undefined > c` is false). -/
def qGT (o : Option ℚ) (c : ℚ) : Bool :=
  match o with
  | some v => decide (v > c)
  | none => false

/-- JS `x < c` for a possibly-absent number `x` (`undefined < c` is false). -/
def qLT (o : Option ℚ) (c : ℚ) : Bool :=
  match o with
  | some v => decide (v < c)
  | none => false

/-- The `indicators` object built by `analyzeBehavior`. -/
structure BehaviorResult where
  isBot : Bool
  confidence : Nat
  reasons : List String
deriving DecidableEq

/-- One guarded update of the `indicators` accumulator of
`analyzeBehavior`: when the indicator fires, add its penalty to the
confidence and push its reason. -/
def behaviorStep (cond : Bool) (penalty : Nat) (reason : String)
    (acc : Nat × List String) : Nat × List String :=
  if cond then (acc.1 + penalty, acc.2 ++ [reason]) else acc

/-- `analyzeBehavior` (`BotFilter.js` lines 148-200).  The source reads
`session.headers.acceptLanguage` without guarding `session.headers`; when
`headers` is absent this throws a `TypeError`, modelled by `none`.
Otherwise the seven indicator checks accumulate confidence and reasons in
source order and the verdict is bot when the total reaches 50. -/
def analyzeBehavior (session : Session) : Option BehaviorResult :=
  match session.headers with
  | none => none
  | some hdrs =>
    let acc :=
      behaviorStep (qGT session.requestsPerMinute rapidRequests) 30
        "Excessive request rate" (0, [])
    let acc :=
      behaviorStep (qLT session.duration shortSessionDuration) 20
        "Suspiciously short session" acc
    let acc :=
      behaviorStep (!(session.hasJavaScript == some true)) 25
        "No JavaScript execution detected" acc
    let acc :=
      behaviorStep (session.accessPattern == .str "sequential" &&
          session.perfectTiming == some true) 25
        "Perfect sequential access pattern" acc
    let acc :=
      behaviorStep (session.errorRate == some 0 && qGT session.requestCount 50) 15
        "Zero error rate with high request count" acc
    let acc :=
      behaviorStep (!hdrs.acceptLanguage.truthy) 10
        "Missing Accept-Language header" acc
    let acc :=
      behaviorStep (!hdrs.referer.truthy && qGT session.requestCount 5) 10
        "Missing Referer header on multiple requests" acc
    some ⟨decide (acc.1 ≥ 50), acc.1, acc.2⟩

/-- A classification verdict (`result` in `isBot`). -/
structure Verdict where
  isBot : Bool
  confidence : Nat
  reasons : List String
  method : Option String
deriving DecidableEq

/-- The request-like record passed to `isBot`. -/
structure Request where
  userAgent : JStr
  ip : JStr
  session : Option Session
deriving DecidableEq

/-- `isBot` (`BotFilter.js` lines 207-246): user-agent check, then IP check,
then behavioural check, each returning early on a match.  `none` models a
`TypeError` escaping from the behavioural check. -/
def isBot (request : Request) : Option Verdict :=
  if isBotUserAgent request.userAgent then
    some ⟨true, 95, ["Bot user-agent detected"], some "user-agent"⟩
  else if request.ip.truthy && isBotIP request.ip then
    some ⟨true, 85, ["IP from known bot range"], some "ip-range"⟩
  else
    match request.session with
    | none => some ⟨false, 0, [], none⟩
    | some s =>
      match analyzeBehavior s with
      | none => none
      | some b =>
        if b.isBot then some ⟨true, b.confidence, b.reasons, some "behavioral"⟩
        else some ⟨false, 0, [], none⟩

/-! ### Log entries and the partitioning step (`filterLogs`) -/

/-- One raw log entry, with the fields this core reads.  (`country` and
`city` feed only the geography pass-through, which no claim touches and
which is omitted from the model.) -/
structure Entry where
  timestamp : String
  ip : JStr
  userAgent : JStr
  path : JStr
  url : JStr
  referer : JStr
  referrer : JStr
  session : Option Session
deriving DecidableEq

/-- The request record `filterLogs` builds for each entry. -/
def reqOf (e : Entry) : Request := ⟨e.userAgent, e.ip, e.session⟩

/-- A JS number that may be `NaN` (an unguarded `0/0`). -/
inductive JNum where
  | num (q : ℚ)
  | nan
deriving DecidableEq

/-- The numeric value of `x.toFixed(2)`: rounding to two decimals, half up
(the JS behaviour on the positive, non-tie values arising in this core). -/
def toFixed2 (q : ℚ) : ℚ := ((⌊q * 100 + 1/2⌋ : ℤ) : ℚ) / 100

/-- `((n / d) * 100).toFixed(2)` as computed by `filterLogs`; `d = 0` gives
the JS `NaN` (in the source `n ≤ d`, so `n` is then also `0`). -/
def jsPct (n d : Nat) : JNum :=
  if d = 0 then .nan else .num (toFixed2 ((n : ℚ) / d * 100))

/-- Bump the counter for key `k` in an insertion-ordered association list
(the JS `obj[k] = (obj[k] || 0) + 1` idiom). -/
def bump (l : List (String × Nat)) (k : String) : List (String × Nat) :=
  match l with
  | [] => [(k, 1)]
  | (k', n) :: rest => if k' = k then (k', n + 1) :: rest
                       else (k', n) :: bump rest k

/-- Look up a counter in an insertion-ordered association list. -/
def countOf (l : List (String × Nat)) (k : String) : Nat :=
  match l.find? (fun p => p.1 == k) with
  | some p => p.2
  | none => 0

/-- The `stats.detectionMethods` map: one count per detection method over
the bot-flagged entries, `"unknown"` when the verdict carries no method. -/
def methodsOf (bots : List (Entry × Verdict)) : List (String × Nat) :=
  bots.foldl (fun acc b => bump acc (b.2.method.getD "unknown")) []

/-- The entry-by-entry loop of `filterLogs`: classify each entry in order,
appending it to the legitimate list or (annotated with its verdict) to the
bot list.  `none` models a `TypeError` thrown by some classification. -/
def filterWalk : List Entry → Option (List Entry × List (Entry × Verdict))
  | [] => some ([], [])
  | e :: rest =>
    match isBot (reqOf e) with
    | none => none
    | some d =>
      match filterWalk rest with
      | none => none
      | some (legit, bots) =>
        if d.isBot then some (legit, (e, d) :: bots)
        else some (e :: legit, bots)

/-- The `stats` object of `filterLogs`. -/
structure FilterStats where
  botPercentage : JNum
  detectionMethods : List (String × Nat)
deriving DecidableEq

/-- The `results` object of `filterLogs`. -/
structure FilterResults where
  total : Nat
  legitimate : List Entry
  bots : List (Entry × Verdict)
  stats : FilterStats
deriving DecidableEq

/-- `filterLogs` (`BotFilter.js` lines 253-290). -/
def filterLogs (entries : List Entry) : Option FilterResults :=
  (filterWalk entries).map fun r =>
    { total := entries.length
      legitimate := r.1
      bots := r.2
      stats := { botPercentage := jsPct r.2.length entries.length
                 detectionMethods := methodsOf r.2 } }

/-- The classification outcome of one entry, with a thrown classification
reading as "not a bot" (only used under a no-throw hypothesis). -/
def entryIsBot (e : Entry) : Bool :=
  match isBot (reqOf e) with
  | some d => d.isBot
  | none => false

/-! ### AnalyticsReconstructor (appended to `WaybackFetcher.js`)

The constructor stores `this.sessionTimeout = 30 * 60 * 1000`.  The MD5
digest and `Date` parsing are external platform services, abstracted below
as the section parameters `md5hex` and `parseTime`. -/

/-- `this.sessionTimeout`: 30 minutes in milliseconds. -/
def sessionTimeout : Int := 30 * 60 * 1000

section Reconstructor

variable (md5hex : String → String) (parseTime : String → Int)

/-- `_createFingerprint`: the digest of the literal pipe-joined string with
`"unknown"` substituted for each falsy identity field. -/
def _createFingerprint (ip userAgent : JStr) : String :=
  md5hex (jstrOr ip "unknown" ++ "|" ++ jstrOr userAgent "unknown")

/-- The `visitors` sub-aggregate of the analytics result. -/
structure VisitorsResult where
  byIP : Nat
  byFingerprint : Nat
  recommended : Nat
deriving DecidableEq

/-- `_calculateVisitors`: distinct truthy IPs band distinct fingerprints
(JS `Set` sizes); the fingerprint count is also the recommended metric. -/
def _calculateVisitors (entries : List Entry) : VisitorsResult :=
  let ips := ((entries.filter (fun e => e.ip.truthy)).map (fun e => e.ip.val)).dedup
  let fps := (entries.map (fun e => _createFingerprint md5hex e.ip e.userAgent)).dedup
  ⟨ips.length, fps.length, fps.length⟩

/-- The `impressions` sub-aggregate.  `_calculateImpressions` counts one
impression per entry; the per-path breakdown (counts, unique visitors,
views-per-visitor, top-10 slice) is not consulted by any claim and is
omitted from the model. -/
structure ImpressionsResult where
  total : Nat
deriving DecidableEq

/-- `_calculateImpressions`, restricted to its `total` field: the loop
increments `totalImpressions` once per entry. -/
def _calculateImpressions (entries : List Entry) : ImpressionsResult :=
  ⟨entries.length⟩

/-- Push a visit timestamp onto the bucket of a visitor in the insertion-ordered
`visitorSessions` map (the `path` stored alongside each timestamp in the
source is never read afterwards and is not modelled). -/
def upsertVisit (l : List (String × List Int)) (k : String) (t : Int) :
    List (String × List Int) :=
  match l with
  | [] => [(k, [t])]
  | (k', ts) :: rest => if k' = k then (k', ts ++ [t]) :: rest
                        else (k', ts) :: upsertVisit rest k t

/-- The `visitorSessions` map of `_calculateSessions`: entries grouped by
fingerprint in first-appearance order, visit timestamps in entry order. -/
def groupVisits (entries : List Entry) : List (String × List Int) :=
  entries.foldl
    (fun acc e =>
      upsertVisit acc (_createFingerprint md5hex e.ip e.userAgent)
        (parseTime e.timestamp)) []

/-- Insert into a sorted list of timestamps (ascending). -/
def insertSorted (x : Int) : List Int → List Int
  | [] => [x]
  | y :: ys => if x ≤ y then x :: y :: ys else y :: insertSorted x ys

/-- `visits.sort((a, b) => a.timestamp - b.timestamp)`: ascending numeric
sort.  On a list of integer timestamps every correct ascending sort returns
the same list, so insertion sort is an exact model. -/
def sortVisits (l : List Int) : List Int := l.foldr insertSorted []

/-- The inner loop of `_calculateSessions` over the sorted visit
timestamps of one visitor: a gap strictly above the timeout closes the current session
(recording its duration and page count) and opens a new one; the final open
session is closed when the list ends. -/
def sessionWalk (prev start : Int) (pages : Nat) : List Int → List (Int × Nat)
  | [] => [(prev - start, pages)]
  | t :: rest =>
    if t - prev > sessionTimeout then
      (prev - start, pages) :: sessionWalk t t 1 rest
    else
      sessionWalk t start (pages + 1) rest

/-- The sessions (duration, pageCount) reconstructed from the sorted visit
timestamps of one visitor.  A visitor bucket is never empty in the source
(buckets are created by pushing a first visit); the `[]` case is
unreachable there. -/
def sessionsOf : List Int → List (Int × Nat)
  | [] => []
  | t :: rest => sessionWalk t t 1 rest

/-- All reconstructed sessions of a batch, visitor by visitor: the zipped
`sessionDurations` / `pagesPerSession` accumulators of the source. -/
def visitorSessionData (entries : List Entry) : List (Int × Nat) :=
  ((groupVisits md5hex parseTime entries).map
    (fun g => sessionsOf (sortVisits g.2))).flatten

/-- `_average`: arithmetic mean, `0` for an empty list (guarded division). -/
def _average (l : List ℚ) : ℚ :=
  if l.length = 0 then 0 else l.sum / l.length

/-- `_calculateBounceRate`: the percentage of sessions with exactly one
page, via `toFixed(2)`.  The division is unguarded in the source, so an
empty session list yields the JS `NaN`. -/
def _calculateBounceRate (pagesPerSession : List Nat) : JNum :=
  if pagesPerSession.length = 0 then .nan
  else .num (toFixed2
    (((pagesPerSession.filter (fun pages => pages = 1)).length : ℚ) /
      pagesPerSession.length * 100))

/-- The `sessions` sub-aggregate (`avgDurationFormatted`, a display string,
is not modelled). -/
structure SessionsResult where
  total : Nat
  avgDuration : ℚ
  avgPagesPerSession : ℚ
  bounceRate : JNum
deriving DecidableEq

/-- `_calculateSessions` (`WaybackFetcher.js` appendix, lines 475-536). -/
def _calculateSessions (entries : List Entry) : SessionsResult :=
  let data := visitorSessionData md5hex parseTime entries
  let durations : List ℚ := data.map (fun d => (d.1 : ℚ))
  let pages : List Nat := data.map (fun d => d.2)
  { total := data.length
    avgDuration := _average durations
    avgPagesPerSession := toFixed2 (_average (pages.map (fun p => (p : ℚ))))
    bounceRate := _calculateBounceRate pages }

/-- A model of the WHATWG `new URL(s)` constructor as used by
`_extractHostname`, restricted to absolute `http`/`https` URLs: the
hostname is the text between the scheme and the first `/`, `:`, `?` or `#`.
Any other string (in particular one with no scheme, such as a bare word) is
treated as unparseable, for which the real constructor throws.  This is a
model of a platform service, not of repository code. -/
def urlHostname (s : String) : Option String :=
  if strStartsWith s "http://" then
    let h : String := ⟨(s.data.drop 7).takeWhile
      (fun c => !(c == '/' || c == ':' || c == '?' || c == '#'))⟩
    if h == "" then none else some h
  else if strStartsWith s "https://" then
    let h : String := ⟨(s.data.drop 8).takeWhile
      (fun c => !(c == '/' || c == ':' || c == '?' || c == '#'))⟩
    if h == "" then none else some h
  else none

/-- `_extractHostname`: falsy input or the literal `"Direct"` stays
`"Direct"`; a parseable URL contributes its hostname; an unparseable string
is returned unchanged (the `catch` branch returns `url` itself). -/
def _extractHostname (url : String) : String :=
  if url == "" || url == "Direct" then "Direct"
  else
    match urlHostname url with
    | some h => h
    | none => url

/-- The referrer bucket of one entry:
`entry.referer || entry.referrer` defaulting to `"Direct"`, fed to
`_extractHostname`. -/
def refererKey (e : Entry) : String :=
  _extractHostname (jstrOr e.referer (jstrOr e.referrer "Direct"))

/-- `_calculateReferrers`, restricted to the bucket counts: visits counted
per referrer bucket in first-appearance order.  The per-bucket unique
visitor sets and the sorted top-10 presentation are not consulted by any
claim and are omitted. -/
def _calculateReferrers (entries : List Entry) : List (String × Nat) :=
  entries.foldl (fun acc e => bump acc (refererKey e)) []

/-- The `overview.dateRange` object (`start` and `end` are modelled by
their epoch-millisecond values; the source formats them with
`toISOString`). -/
structure DateRange where
  start : Int
  stop : Int
  days : Int
deriving DecidableEq

/-- `_getDateRange`: `null` for an empty batch, else the earliest and
latest parsed timestamps and the day span (`Math.ceil` of the millisecond
span over a day). -/
def _getDateRange (entries : List Entry) : Option DateRange :=
  if entries.length = 0 then none
  else
    let dates := sortVisits (entries.map (fun e => parseTime e.timestamp))
    let first := dates.headD 0
    let last := dates.getLastD 0
    some ⟨first, last, ⌈((last - first : Int) : ℚ) / 86400000⌉⟩

/-- The `overview` sub-aggregate of `processLogs`. -/
structure Overview where
  totalRequests : Nat
  totalBots : Nat
  botPercentage : JNum
  dateRange : Option DateRange
deriving DecidableEq

/-- The analytics result, restricted to the sub-aggregates the claims
consult.  The `pages`, `devices`, `browsers`, `geography` and `timeline`
sub-aggregates are independent per-entry tallies not consulted by any
claim and do not influence the modelled fields. -/
structure Analytics where
  overview : Overview
  visitors : VisitorsResult
  impressions : ImpressionsResult
  sessions : SessionsResult
  referrers : List (String × Nat)
deriving DecidableEq

/-- `processLogs` (`WaybackFetcher.js` appendix, lines 367-395), with the
bot filter supplied.  In the source `overview.botPercentage` is
`filteredLogs.stats?.botPercentage || 0`; the stats value is a nonempty
string produced by `toFixed`, hence always truthy, so it passes through
unchanged (even when it is the string `"NaN"`).  A `TypeError` thrown by
classification propagates out (`none`). -/
def processLogs (entries : List Entry) : Option Analytics :=
  (filterLogs entries).map fun fl =>
    { overview :=
        { totalRequests := fl.legitimate.length
          totalBots := fl.bots.length
          botPercentage := fl.stats.botPercentage
          dateRange := _getDateRange parseTime fl.legitimate }
      visitors := _calculateVisitors md5hex fl.legitimate
      impressions := _calculateImpressions fl.legitimate
      sessions := _calculateSessions md5hex parseTime fl.legitimate
      referrers := _calculateReferrers fl.legitimate }

end Reconstructor

/-! ## Claim theorems -/

/-- C1: for every request whose user-agent string matches some bot signature
in the catalog, `isBot` returns the verdict with `isBot = true`,
`confidence = 95` and `method = "user-agent"`, for every `ip` and `session`
value supplied — the IP and behavioural checks are not evaluated (the
result does not depend on them, even on a session whose behavioural check
would throw). -/
theorem claim1_user_agent_short_circuit (userAgent : String) (ip : JStr)
    (session : Option Session)
    (h : ∃ p ∈ botPatterns, containsSub (lowerStr userAgent) p = true) :
    isBot ⟨.str userAgent, ip, session⟩ =
      some ⟨true, 95, ["Bot user-agent detected"], some "user-agent"⟩ := by
  have hua : isBotUserAgent (.str userAgent) = true := by
    simp only [isBotUserAgent]
    by_cases he : userAgent == ""
    · rw [if_pos he]
    · rw [if_neg he, List.any_eq_true]
      obtain ⟨p, hp, hc⟩ := h
      exact ⟨p, hp, hc⟩
  simp only [isBot, hua, if_true]

/-- Witness for C1: `"Googlebot/2.1"` matches a signature, and even with an
IP from the bot range and a session whose behavioural analysis would throw,
the verdict is the user-agent one. -/
def c1session : Session := ⟨none, none, none, .undefined, none, none, none, none⟩

theorem claim1_witness :
    (∃ p ∈ botPatterns, containsSub (lowerStr "Googlebot/2.1") p = true) ∧
    isBot ⟨.str "Googlebot/2.1", .str "66.249.1.1", some c1session⟩ =
      some ⟨true, 95, ["Bot user-agent detected"], some "user-agent"⟩ :=
  ⟨by decide,
   claim1_user_agent_short_circuit "Googlebot/2.1" (.str "66.249.1.1")
     (some c1session) (by decide)⟩

/-- C4 (code bug): `processLogs` is claimed never to throw, but an entry
carrying a session object with no `headers` field makes `analyzeBehavior`
read `session.headers.acceptLanguage` on `undefined`, and the resulting
`TypeError` propagates through `filterLogs` out of `processLogs` (modelled
by the `none` result). -/
def c4session : Session := ⟨none, none, none, .undefined, none, none, none, none⟩

def c4entry : Entry :=
  ⟨"2024-01-01T00:00:00Z", .undefined, .str "Mozilla/5.0", .undefined,
    .undefined, .undefined, .undefined, some c4session⟩

theorem claim4_process_logs_throws :
    analyzeBehavior c4session = none ∧
    processLogs id (fun _ => 0) [c4entry] = none := by decide

/-- C6: the visitor fingerprint is a pure function of `(ip, userAgent)`: it
is exactly the digest of the pipe-joined string with `"unknown"`
substituted for falsy fields, equal inputs give equal fingerprints, and the
`undefined`/`undefined` and `null`/`null` cases coincide. -/
theorem claim6_fingerprint_deterministic (md5hex : String → String)
    (ip userAgent ip' userAgent' : JStr)
    (h1 : ip = ip') (h2 : userAgent = userAgent') :
    _createFingerprint md5hex ip userAgent =
      md5hex (jstrOr ip "unknown" ++ "|" ++ jstrOr userAgent "unknown") ∧
    _createFingerprint md5hex ip userAgent =
      _createFingerprint md5hex ip' userAgent' ∧
    _createFingerprint md5hex .undefined .undefined =
      _createFingerprint md5hex .jnull .jnull := by
  subst h1
  subst h2
  exact ⟨rfl, rfl, rfl⟩

theorem claim6_witness :
    ((JStr.str "1.2.3.4") = JStr.str "1.2.3.4") ∧
    ((JStr.str "Mozilla/5.0 Chrome/120") = JStr.str "Mozilla/5.0 Chrome/120") ∧
    (_createFingerprint id (.str "1.2.3.4") (.str "Mozilla/5.0 Chrome/120") =
      id (jstrOr (.str "1.2.3.4") "unknown" ++ "|" ++
          jstrOr (.str "Mozilla/5.0 Chrome/120") "unknown") ∧
     _createFingerprint id (.str "1.2.3.4") (.str "Mozilla/5.0 Chrome/120") =
      _createFingerprint id (.str "1.2.3.4") (.str "Mozilla/5.0 Chrome/120") ∧
     _createFingerprint id .undefined .undefined =
      _createFingerprint id .jnull .jnull) :=
  ⟨rfl, rfl,
   claim6_fingerprint_deterministic id (.str "1.2.3.4")
     (.str "Mozilla/5.0 Chrome/120") (.str "1.2.3.4")
     (.str "Mozilla/5.0 Chrome/120") rfl rfl⟩

/-- The partition property of the `filterLogs` loop: when no classification
throws, the legitimate output is the in-order sublist of non-bot entries
(unchanged), the bot output is the in-order sublist of bot entries, each
annotated with exactly its own verdict, and the two lengths add up. -/
theorem filterWalk_spec (entries : List Entry) :
    ∀ (l : List Entry) (b : List (Entry × Verdict)),
      filterWalk entries = some (l, b) →
      l = entries.filter (fun e => !entryIsBot e) ∧
      b.map Prod.fst = entries.filter (fun e => entryIsBot e) ∧
      (∀ p ∈ b, isBot (reqOf p.1) = some p.2) ∧
      l.length + b.length = entries.length := by
  induction entries with
  | nil =>
    intro l b h
    simp only [filterWalk, Option.some.injEq, Prod.mk.injEq] at h
    obtain ⟨rfl, rfl⟩ := h
    simp
  | cons e rest ih =>
    intro l b h
    simp only [filterWalk] at h
    cases hd : isBot (reqOf e) with
    | none => rw [hd] at h; exact absurd h (by simp)
    | some d =>
      rw [hd] at h
      cases hw : filterWalk rest with
      | none => rw [hw] at h; exact absurd h (by simp)
      | some lb =>
        obtain ⟨l', b'⟩ := lb
        rw [hw] at h
        dsimp only at h
        obtain ⟨h1, h2, h3, h4⟩ := ih l' b' hw
        have hbit : entryIsBot e = d.isBot := by simp [entryIsBot, hd]
        by_cases hb : d.isBot
        · rw [if_pos hb] at h
          simp only [Option.some.injEq, Prod.mk.injEq] at h
          obtain ⟨rfl, rfl⟩ := h
          refine ⟨?_, ?_, ?_, ?_⟩
          · rw [List.filter_cons_of_neg (by simp [hbit, hb]), h1]
          · rw [List.filter_cons_of_pos (by simp [hbit, hb]), List.map_cons, h2]
          · intro p hp
            rcases List.mem_cons.mp hp with rfl | hp'
            · exact hd
            · exact h3 p hp'
          · simpa using by omega
        · rw [if_neg hb] at h
          simp only [Option.some.injEq, Prod.mk.injEq] at h
          obtain ⟨rfl, rfl⟩ := h
          refine ⟨?_, ?_, ?_, ?_⟩
          · rw [List.filter_cons_of_pos (by simp [hbit, hb]), h1]
          · rw [List.filter_cons_of_neg (by simp [hbit, hb]), h2]
          · exact h3
          · simpa using by omega

/-- C2: whenever `filterLogs` returns (no classification throws — in
particular on every array of plain log entries, which carry no behavioural
session), the partition is complete and stable: the legitimate list is the
in-order sublist of non-bot entries with their original field values, the
bot list is the in-order sublist of bot entries each annotated with its own
verdict, and `legitimate.length + bots.length = entries.length`. -/
theorem claim2_stable_partition (entries : List Entry) (r : FilterResults)
    (h : filterLogs entries = some r) :
    r.legitimate = entries.filter (fun e => !entryIsBot e) ∧
    r.bots.map Prod.fst = entries.filter (fun e => entryIsBot e) ∧
    (∀ p ∈ r.bots, isBot (reqOf p.1) = some p.2) ∧
    r.legitimate.length + r.bots.length = entries.length := by
  unfold filterLogs at h
  cases hw : filterWalk entries with
  | none => rw [hw] at h; exact absurd h (by simp)
  | some lb =>
    rw [hw] at h
    simp only [Option.map_some', Option.some.injEq] at h
    subst h
    exact filterWalk_spec entries lb.1 lb.2 (by rw [hw])

/-- Witness fixtures for C2: one legitimate browser entry, one Googlebot
entry. -/
def c2legit : Entry :=
  ⟨"t1", .str "1.1.1.1", .str "Mozilla/5.0", .undefined, .undefined,
    .undefined, .undefined, none⟩

def c2bot : Entry :=
  ⟨"t2", .str "2.2.2.2", .str "Googlebot/2.1", .undefined, .undefined,
    .undefined, .undefined, none⟩

def c2results : FilterResults :=
  { total := 2
    legitimate := [c2legit]
    bots := [(c2bot, ⟨true, 95, ["Bot user-agent detected"], some "user-agent"⟩)]
    stats := ⟨.num 50, [("user-agent", 1)]⟩ }

theorem claim2_witness :
    filterLogs [c2legit, c2bot] = some c2results ∧
    (c2results.legitimate = [c2legit, c2bot].filter (fun e => !entryIsBot e) ∧
     c2results.bots.map Prod.fst = [c2legit, c2bot].filter (fun e => entryIsBot e) ∧
     (∀ p ∈ c2results.bots, isBot (reqOf p.1) = some p.2) ∧
     c2results.legitimate.length + c2results.bots.length = [c2legit, c2bot].length) := by
  have h : filterLogs [c2legit, c2bot] = some c2results := by
    have hw : filterWalk [c2legit, c2bot] =
        some ([c2legit],
          [(c2bot, ⟨true, 95, ["Bot user-agent detected"], some "user-agent"⟩)]) := by
      decide
    simp only [filterLogs, hw, Option.map_some']
    norm_num [c2results, jsPct, toFixed2, methodsOf, bump]
  exact ⟨h, claim2_stable_partition [c2legit, c2bot] c2results h⟩

/-- Specification-side measure for C3: the number of consecutive-event gaps
strictly above the session timeout in a visit list — the spec says a new
session starts exactly at such gaps. -/
def specGapCount (l : List Int) : Nat :=
  (l.zip l.tail).countP (fun p => decide (p.2 - p.1 > sessionTimeout))

/-- The session walk closes one session per strict-timeout-exceeding gap,
plus the final open session. -/
theorem sessionWalk_length (l : List Int) :
    ∀ (prev start : Int) (pages : Nat),
      (sessionWalk prev start pages l).length =
        1 + ((prev :: l).zip l).countP
              (fun p => decide (p.2 - p.1 > sessionTimeout)) := by
  induction l with
  | nil => intro prev start pages; simp [sessionWalk]
  | cons t rest ih =>
    intro prev start pages
    rw [sessionWalk]
    by_cases hgap : t - prev > sessionTimeout
    · rw [if_pos hgap]
      simp only [List.length_cons, ih, List.zip_cons_cons, List.countP_cons,
        List.tail_cons]
      simp [hgap]
      omega
    · rw [if_neg hgap]
      simp only [ih, List.zip_cons_cons, List.countP_cons, List.tail_cons]
      simp [hgap]

/-- Witness fixtures for C3: one visitor (same ip and user agent), events
fed out of order with timestamps 10 min, 45 min and 0. -/
def c3a : Entry :=
  ⟨"a", .str "1.1.1.1", .str "Mozilla/5.0", .undefined, .undefined,
    .undefined, .undefined, none⟩

def c3b : Entry :=
  ⟨"b", .str "1.1.1.1", .str "Mozilla/5.0", .undefined, .undefined,
    .undefined, .undefined, none⟩

def c3c : Entry :=
  ⟨"c", .str "1.1.1.1", .str "Mozilla/5.0", .undefined, .undefined,
    .undefined, .undefined, none⟩

/-- C3: session reconstruction sorts the events of each visitor ascending and
starts a new session exactly when a consecutive gap is strictly greater
than the 30-minute timeout (so the number of sessions of a nonempty visit
list is one plus the number of such gaps — in particular a zero gap never
starts a session); and for one visitor with events at t = 0, 10 min and
45 min (supplied out of order) the reconstruction yields exactly the two
sessions (duration 10 min, 2 pages) and (duration 0, 1 page). -/
theorem claim3_session_boundaries :
    (∀ (t : Int) (rest : List Int),
      (sessionsOf (t :: rest)).length = 1 + specGapCount (t :: rest)) ∧
    (∀ md5hex : String → String,
      visitorSessionData md5hex
        (fun s => if s = "a" then 600000 else if s = "b" then 2700000 else 0)
        [c3a, c3b, c3c] = [(600000, 2), (0, 1)]) := by
  constructor
  · intro t rest
    rw [sessionsOf, specGapCount]
    simpa using sessionWalk_length rest t t 1
  · intro md5hex
    simp only [visitorSessionData, groupVisits, List.foldl_cons, List.foldl_nil,
      upsertVisit, _createFingerprint, c3a, c3b, c3c]
    simp only [List.map_cons, List.map_nil, List.flatten]
    simp
    decide

/-- C9: the reported bounce rate is the `toFixed(2)` percentage of
reconstructed sessions whose page count is exactly 1 (for any nonempty
session list), the `sessions.bounceRate` field is exactly that computation
over the reconstructed page counts, and for page counts `[1, 1, 3]` the
bounce rate is 66.67. -/
theorem claim9_bounce_rate :
    (∀ (md5hex : String → String) (parseTime : String → Int)
       (entries : List Entry),
      (_calculateSessions md5hex parseTime entries).bounceRate =
        _calculateBounceRate
          ((visitorSessionData md5hex parseTime entries).map (fun d => d.2))) ∧
    (∀ (p : Nat) (rest : List Nat),
      _calculateBounceRate (p :: rest) =
        .num (toFixed2
          ((((p :: rest).filter (fun pages => pages = 1)).length : ℚ) /
            (p :: rest).length * 100))) ∧
    _calculateBounceRate [1, 1, 3] = .num (6667 / 100) := by
  refine ⟨fun _ _ _ => rfl, fun p rest => ?_, ?_⟩
  · rw [_calculateBounceRate, if_neg (by simp)]
  · norm_num [_calculateBounceRate, toFixed2]

/-- The confidence component of one accumulator update. -/
theorem behaviorStep_fst (cond : Bool) (penalty : Nat) (reason : String)
    (acc : Nat × List String) :
    (behaviorStep cond penalty reason acc).1 =
      acc.1 + (if cond then penalty else 0) := by
  cases cond <;> simp [behaviorStep]

/-- The reason-list component of one accumulator update. -/
theorem behaviorStep_snd (cond : Bool) (penalty : Nat) (reason : String)
    (acc : Nat × List String) :
    (behaviorStep cond penalty reason acc).2 =
      acc.2 ++ (if cond then [reason] else []) := by
  cases cond <;> simp [behaviorStep]

/-- Specification-side formula for C7: the behavioural confidence as the
sum of the seven weighted penalties the spec lists, one per triggered
indicator.  (Compared against the sequential accumulation of the source in
`analyzeBehavior`.) -/
def specBehaviorConfidence (s : Session) (hdrs : Headers) : Nat :=
  (if qGT s.requestsPerMinute 100 then 30 else 0) +
  (if qLT s.duration 2000 then 20 else 0) +
  (if !(s.hasJavaScript == some true) then 25 else 0) +
  (if s.accessPattern == .str "sequential" && s.perfectTiming == some true
     then 25 else 0) +
  (if s.errorRate == some 0 && qGT s.requestCount 50 then 15 else 0) +
  (if !hdrs.acceptLanguage.truthy then 10 else 0) +
  (if !hdrs.referer.truthy && qGT s.requestCount 5 then 10 else 0)

/-- Specification-side reason list for C7: the reason string of each
triggered indicator, in check order. -/
def specBehaviorReasons (s : Session) (hdrs : Headers) : List String :=
  (if qGT s.requestsPerMinute 100 then ["Excessive request rate"] else []) ++
  (if qLT s.duration 2000 then ["Suspiciously short session"] else []) ++
  (if !(s.hasJavaScript == some true)
     then ["No JavaScript execution detected"] else []) ++
  (if s.accessPattern == .str "sequential" && s.perfectTiming == some true
     then ["Perfect sequential access pattern"] else []) ++
  (if s.errorRate == some 0 && qGT s.requestCount 50
     then ["Zero error rate with high request count"] else []) ++
  (if !hdrs.acceptLanguage.truthy then ["Missing Accept-Language header"] else []) ++
  (if !hdrs.referer.truthy && qGT s.requestCount 5
     then ["Missing Referer header on multiple requests"] else [])

/-- C7: when neither the user-agent nor the IP check fires and a session
summary (with its headers object) is supplied, the behavioural check
reports exactly the summed penalties of the triggered indicators with
their reasons, the verdict is bot if and only if that sum reaches 50, and
`isBot` then returns the behavioural verdict (or the clean verdict when
the sum stays below 50). -/
theorem claim7_behavioral_scoring (s : Session) (hdrs : Headers)
    (userAgent ip : JStr)
    (hua : isBotUserAgent userAgent = false)
    (hip : (ip.truthy && isBotIP ip) = false)
    (hh : s.headers = some hdrs) :
    analyzeBehavior s =
      some ⟨decide (specBehaviorConfidence s hdrs ≥ 50),
            specBehaviorConfidence s hdrs, specBehaviorReasons s hdrs⟩ ∧
    isBot ⟨userAgent, ip, some s⟩ =
      some (if specBehaviorConfidence s hdrs ≥ 50 then
              ⟨true, specBehaviorConfidence s hdrs, specBehaviorReasons s hdrs,
                some "behavioral"⟩
            else ⟨false, 0, [], none⟩) := by
  have hab : analyzeBehavior s =
      some ⟨decide (specBehaviorConfidence s hdrs ≥ 50),
            specBehaviorConfidence s hdrs, specBehaviorReasons s hdrs⟩ := by
    simp only [analyzeBehavior, hh]
    simp only [behaviorStep_fst, behaviorStep_snd, specBehaviorConfidence,
      specBehaviorReasons, rapidRequests, shortSessionDuration]
    simp [Nat.add_assoc, List.append_assoc]
  refine ⟨hab, ?_⟩
  simp only [isBot, hua, hip, Bool.false_eq_true, if_false, hab]
  by_cases hc : specBehaviorConfidence s hdrs ≥ 50
  · simp [hc]
  · simp [hc]

/-- Witness fixtures for C7: a session triggering all seven indicators
(confidence 135), supplied with a clean user agent and IP. -/
def c7headers : Headers := ⟨.undefined, .undefined⟩

def c7session : Session :=
  ⟨some 200, some 1000, none, .str "sequential", some true, some 0, some 60,
    some c7headers⟩

theorem claim7_witness :
    isBotUserAgent (.str "Mozilla/5.0") = false ∧
    ((JStr.str "3.3.3.3").truthy && isBotIP (.str "3.3.3.3")) = false ∧
    c7session.headers = some c7headers ∧
    (analyzeBehavior c7session =
      some ⟨decide (specBehaviorConfidence c7session c7headers ≥ 50),
            specBehaviorConfidence c7session c7headers,
            specBehaviorReasons c7session c7headers⟩ ∧
     isBot ⟨.str "Mozilla/5.0", .str "3.3.3.3", some c7session⟩ =
      some (if specBehaviorConfidence c7session c7headers ≥ 50 then
              ⟨true, specBehaviorConfidence c7session c7headers,
                specBehaviorReasons c7session c7headers, some "behavioral"⟩
            else ⟨false, 0, [], none⟩)) :=
  ⟨by decide, by decide, rfl,
   claim7_behavioral_scoring c7session c7headers (.str "Mozilla/5.0")
     (.str "3.3.3.3") (by decide) (by decide) rfl⟩

/-- C5 (code bug): on an empty entry array the counts are all zero and the
date range is null as claimed, but `overview.botPercentage` and
`sessions.bounceRate` are the JS `NaN` (the strings `"NaN"` produced by
`toFixed` on `0/0`), not a defined zero-or-null value; the
`avgPagesPerSession` field is the well-defined `(0).toFixed(2)`. -/
theorem claim5_empty_input_nan :
    processLogs id (fun _ => 0) [] =
      some { overview := ⟨0, 0, .nan, none⟩
             visitors := ⟨0, 0, 0⟩
             impressions := ⟨0⟩
             sessions := ⟨0, 0, 0, .nan⟩
             referrers := [] } := by
  have h : processLogs id (fun _ => 0) ([] : List Entry) =
      some { overview := ⟨0, 0, .nan, none⟩
             visitors := ⟨0, 0, 0⟩
             impressions := ⟨0⟩
             sessions := ⟨0, 0, toFixed2 0, .nan⟩
             referrers := [] } := rfl
  rw [h]
  norm_num [toFixed2]

/-- Unfolding a `countOf` lookup one association at a time. -/
theorem countOf_cons (k0 : String) (n : Nat) (rest : List (String × Nat))
    (k : String) :
    countOf ((k0, n) :: rest) k = if k0 = k then n else countOf rest k := by
  by_cases h : k0 = k
  · simp [countOf, List.find?, h]
  · simp [countOf, List.find?, beq_eq_false_iff_ne.mpr h, h]

/-- Looking up a key after bumping another key: the count grows by one
exactly at the bumped key. -/
theorem countOf_bump (l : List (String × Nat)) (k' k : String) :
    countOf (bump l k') k = countOf l k + (if k' = k then 1 else 0) := by
  induction l with
  | nil =>
    by_cases h : k' = k
    · subst h; simp [bump, countOf_cons, countOf]
    · simp [bump, countOf_cons, countOf, h]
  | cons q rest ih =>
    obtain ⟨k0, n⟩ := q
    by_cases h0 : k0 = k'
    · subst h0
      simp only [bump, if_pos rfl]
      by_cases h : k0 = k
      · simp [countOf_cons, h]
      · simp [countOf_cons, h]
    · simp only [bump, if_neg h0]
      by_cases h : k0 = k
      · have hk : k' ≠ k := fun hk => h0 (h.trans hk.symm)
        simp [countOf_cons, h, hk]
      · simp [countOf_cons, h, ih]

/-- The referrer fold counts, bucket by bucket: the count of each bucket is
the number of entries keyed to it (over any starting accumulator). -/
theorem countOf_referrer_foldl (entries : List Entry) :
    ∀ (acc : List (String × Nat)) (k : String),
      countOf (entries.foldl (fun acc e => bump acc (refererKey e)) acc) k =
        countOf acc k + entries.countP (fun e => refererKey e == k) := by
  induction entries with
  | nil => intro acc k; simp
  | cons e rest ih =>
    intro acc k
    rw [List.foldl_cons, ih, countOf_bump, List.countP_cons]
    by_cases h : refererKey e = k
    · simp [h]
      omega
    · simp [h, beq_eq_false_iff_ne.mpr h]

/-- Witness fixture for the C8 counterexample: an entry whose referer is a
nonempty string that is not a parseable URL. -/
def c8bad : Entry :=
  ⟨"t", .undefined, .undefined, .undefined, .undefined, .str "not a url",
    .undefined, none⟩

/-- C8 counterexample: an entry whose referer is unparseable (`new URL`
throws on `"not a url"`) is counted under the raw referer string itself,
not under `"Direct"` — the `"Direct"` bucket stays empty. -/
theorem claim8_counterexample :
    urlHostname "not a url" = none ∧
    _calculateReferrers [c8bad] = [("not a url", 1)] ∧
    countOf (_calculateReferrers [c8bad]) "Direct" = 0 := by decide

/-- C8 amended: every entry is counted under the bucket derived from its
referer: the extracted hostname when the referer parses as a URL,
`"Direct"` when both referer fields are falsy, and the raw referer string
itself when it is nonempty but unparseable (and not the literal
`"Direct"`). -/
theorem claim8_direct_bucket_amended :
    (∀ (entries : List Entry) (bucket : String),
      countOf (_calculateReferrers entries) bucket =
        entries.countP (fun e => refererKey e == bucket)) ∧
    (∀ e : Entry, e.referer.truthy = false → e.referrer.truthy = false →
      refererKey e = "Direct") ∧
    (∀ (e : Entry) (r h : String), e.referer = .str r →
      urlHostname r = some h → refererKey e = h) ∧
    (∀ (e : Entry) (r : String), e.referer = .str r → r ≠ "" →
      urlHostname r = none → r ≠ "Direct" → refererKey e = r) := by
  refine ⟨?_, ?_, ?_, ?_⟩
  · intro entries bucket
    rw [_calculateReferrers, countOf_referrer_foldl]
    simp [countOf]
  · intro e h1 h2
    rw [refererKey, jstrOr, jstrOr, if_neg (by simp [h1]), if_neg (by simp [h2])]
    decide
  · intro e r h h1 h2
    have hne : r ≠ "" := by
      intro hr
      subst hr
      rw [show urlHostname "" = none from by decide] at h2
      exact Option.noConfusion h2
    have hnd : r ≠ "Direct" := by
      intro hr
      subst hr
      rw [show urlHostname "Direct" = none from by decide] at h2
      exact Option.noConfusion h2
    rw [refererKey, h1, jstrOr, if_pos (by simp [JStr.truthy, hne]), _extractHostname,
      if_neg (by simp [JStr.val, hne, hnd])]
    simp only [JStr.val]
    rw [h2]
  · intro e r h1 hne hu hnd
    rw [refererKey, h1, jstrOr, if_pos (by simp [JStr.truthy, hne]), _extractHostname,
      if_neg (by simp [JStr.val, hne, hnd])]
    simp only [JStr.val]
    rw [hu]

/-- Witness fixture for the C8 amended theorem: an entry with a parseable
https referer. -/
def c8good : Entry :=
  ⟨"t", .undefined, .undefined, .undefined, .undefined,
    .str "https://google.com/x", .undefined, none⟩

theorem claim8_witness :
    c8good.referer = .str "https://google.com/x" ∧
    urlHostname "https://google.com/x" = some "google.com" ∧
    refererKey c8good = "google.com" :=
  ⟨rfl, by decide,
   claim8_direct_bucket_amended.2.2.1 c8good "https://google.com/x"
     "google.com" rfl (by decide)⟩

/-- C10: the fingerprint substitutes `"unknown"` for any falsy identity
field, not only a missing one: an empty-string `ip` (resp. `userAgent`)
yields the same fingerprint as an `undefined` one, for every value of the
other field. -/
theorem claim10_falsy_collapse (md5hex : String → String) :
    (∀ userAgent : JStr,
      _createFingerprint md5hex (.str "") userAgent =
        _createFingerprint md5hex .undefined userAgent) ∧
    (∀ ip : JStr,
      _createFingerprint md5hex ip (.str "") =
        _createFingerprint md5hex ip .undefined) :=
  ⟨fun _ => rfl, fun _ => rfl⟩

end FontScraper
